import Mathlib

/-!
Shallow embedding of the mc-launcher-rs resource-synchronization core.

Definitions mirror the Rust source:
 - `src/src/metadata/game.rs` (rule evaluator, library inclusion, native classifiers)
 - `src/src/metadata/assets.rs` and `src/mc-launcher-api/src/metadata/assets.rs`
   (asset path sharding)
 - `src/src/io/sync.rs` and `src/src/io/game.rs` (validate/pull)
 - `src/src/process.rs` and `src/src/io/process.rs` (classpath, argument
   substitution)
 - `src/mc-launcher-api/src/file.rs` and `src/src/file.rs` (existence-only fetch)

The ambient `std::env::consts::OS` / `consts::ARCH` of the Rust code are made an
explicit `Platform` argument; `HashMap` parameters become association lists
(iteration order is irrelevant to every modelled result); panics and I/O errors
become `Except`.
-/

namespace McLauncher

/-- Mirrors `RuleAction` in `src/src/metadata/game.rs`. -/
inductive RuleAction where
  | allow
  | disallow
deriving DecidableEq, Repr

/-- Mirrors `OsDescription`. -/
structure OsDescription where
  name : Option String
  version : Option String
  arch : Option String
deriving DecidableEq, Repr

/-- Mirrors `Rule` (the `features` HashMap becomes an association list). -/
structure Rule where
  action : RuleAction
  os : Option OsDescription
  features : Option (List (String × Bool))
deriving DecidableEq, Repr

/-- Explicit stand-in for the ambient `consts::OS` / `consts::ARCH`. -/
structure Platform where
  os : String
  arch : String
deriving DecidableEq, Repr

/-- Mirrors `RuleAction::value`. -/
def RuleAction.value : RuleAction → Bool
  | .allow => true
  | .disallow => false

/-- Mirrors `RuleAction::invert`. -/
def RuleAction.invert : RuleAction → RuleAction
  | .allow => .disallow
  | .disallow => .allow

/-- Lookup in an association list, standing in for `HashMap::get`. -/
def lookup (m : List (String × Bool)) (k : String) : Option Bool :=
  (m.find? (fun kv => kv.1 == k)).map (·.2)

/-- The early-return body of `Rule::calculate_action` for the `os` field:
`name` present and different from the platform OS, or `arch` present and
different from the platform arch, forces `action.invert()` (the `version`
field is only a TODO in the source and is ignored). -/
def OsDescription.mismatches (os : OsDescription) (p : Platform) : Bool :=
  (match os.name with
   | some name => name != p.os
   | none => false) ||
  (match os.arch with
   | some arch => arch != p.arch
   | none => false)

/-- The `features` loop of `Rule::calculate_action`: any entry whose required
value differs from the context value (missing context key defaults to `false`)
forces `action.invert()`. -/
def featuresMismatch (features : List (String × Bool)) (params : List (String × Bool)) : Bool :=
  features.any (fun kv => ((lookup params kv.1).getD false) != kv.2)

/-- Mirrors `Rule::calculate_action` in `src/src/metadata/game.rs`
(lines 174-199), with the ambient platform made explicit. -/
def Rule.calculate_action (r : Rule) (p : Platform) (params : List (String × Bool)) : RuleAction :=
  if (match r.os with
      | some os => os.mismatches p
      | none => false) then r.action.invert
  else if (match r.features with
      | some fs => featuresMismatch fs params
      | none => false) then r.action.invert
  else r.action

/-- Mirrors `Rule::is_allowed`. -/
def Rule.is_allowed (r : Rule) (p : Platform) (params : List (String × Bool)) : Bool :=
  r.calculate_action p params == RuleAction.allow

/-- Mirrors `Rules::is_allowed` (`src/src/metadata/game.rs` lines 206-210):
any rule in the set evaluating to Allow suffices. -/
def Rules.is_allowed (rules : List Rule) (p : Platform) (params : List (String × Bool)) : Bool :=
  rules.any (fun r => r.is_allowed p params)

/-- Mirrors `Resource` (sha1, size, url). -/
structure Resource where
  sha1 : String
  size : Nat
  url : String
deriving DecidableEq, Repr

/-- Mirrors `LibraryResource` (a `Resource` plus its repository-relative path). -/
structure LibraryResource where
  resource : Resource
  path : String
deriving DecidableEq, Repr

/-- Mirrors `LibraryResources` (`artifact` plus the `classifiers` map). -/
structure LibraryResources where
  artifact : Option LibraryResource
  other : Option (List (String × LibraryResource))
deriving DecidableEq, Repr

/-- Mirrors `Library`. -/
structure Library where
  resources : LibraryResources
  name : String
  rules : Option (List Rule)
deriving DecidableEq, Repr

/-- Mirrors `Library::is_supported_by_rules` (`src/src/metadata/game.rs`
lines 258-265): `self.rules.as_ref().map(|rules| rules.is_allowed(&HashMap::new())).unwrap_or(false)`. -/
def Library.is_supported_by_rules (lib : Library) (p : Platform) : Bool :=
  match lib.rules with
  | some rules => Rules.is_allowed rules p []
  | none => false

/-- Mirrors the `match consts::OS` block of `LibraryResources::get_native_for_os`
(`src/src/metadata/game.rs` lines 267-278); the `panic!("unsupported target")`
arm becomes an `Except.error`. -/
def nativeClassifierKey (p : Platform) : Except String String :=
  if p.os == "macos" && p.arch == "aarch64" then .ok "natives-macos-arm64"
  else if p.os == "linux" then .ok "natives-linux"
  else if p.os == "windows" then .ok "natives-windows"
  else if p.os == "macos" then .ok "natives-macos"
  else .error "unsupported target"

/-- Lookup in the classifiers association list, standing in for `HashMap::get`. -/
def lookupRes (m : List (String × LibraryResource)) (k : String) : Option LibraryResource :=
  (m.find? (fun kv => kv.1 == k)).map (·.2)

/-- Mirrors `LibraryResources::get_native_for_os`: the classifier key for the
platform is computed first (panicking on unknown platforms), then looked up in
the `classifiers` map. -/
def LibraryResources.get_native_for_os (res : LibraryResources) (p : Platform) :
    Except String (Option LibraryResource) :=
  match nativeClassifierKey p with
  | .error e => .error e
  | .ok key => .ok (res.other.bind (fun other => lookupRes other key))

/-- Mirrors `AssetMetadata` (`hash`, `size`). -/
structure AssetMetadata where
  hash : String
  size : Nat
deriving DecidableEq, Repr

/-- Mirrors `AssetMetadata::hashed_id` in `src/src/metadata/assets.rs`
(lines 17-21): `format!("{}/{}", &self.hash[..2], self.hash)`. -/
def AssetMetadata.hashed_id (m : AssetMetadata) : String :=
  m.hash.take 2 ++ "/" ++ m.hash

/-- Mirrors `AssetMetadata::hashed_id` in
`src/mc-launcher-api/src/metadata/assets.rs` (lines 17-21):
`format!("{}/{}", self.hash, &self.hash[..2])`. -/
def AssetMetadata.hashed_id_api (m : AssetMetadata) : String :=
  m.hash ++ "/" ++ m.hash.take 2

/-- The asset local path built in `src/src/io/sync.rs` (lines 175-179) and
`src/src/io/game.rs` (lines 179-183), relative to `assets_dir`. -/
def assetRelPath (is_legacy_assets : Bool) (path : String) (m : AssetMetadata) : String :=
  if is_legacy_assets then "virtual/legacy/" ++ path
  else "objects/" ++ m.hashed_id

/-- The asset local path built in `GameRepository::fetch_assets` of
`src/mc-launcher-api/src/file.rs` (lines 197-201), relative to `assets_dir`. -/
def assetRelPathApi (is_legacy_assets : Bool) (path : String) (m : AssetMetadata) : String :=
  if is_legacy_assets then "virtual/legacy/" ++ path
  else "object/" ++ m.hashed_id_api

/-- Modelled from the spec: the remote registry's path convention for an asset
(two-hex-char shard prefix directory, then the full hash as file name), under
`objects/`; legacy layout stores the literal virtual path under
`virtual/legacy/`. -/
def specAssetRelPath (is_legacy_assets : Bool) (path : String) (m : AssetMetadata) : String :=
  if is_legacy_assets then "virtual/legacy/" ++ path
  else "objects/" ++ (m.hash.take 2 ++ "/" ++ m.hash)

/-- Per-path local file system state visible to `validate_file`: whether the
path exists, the outcome of reading its metadata length, and the outcome of
reading its full content (bytes as `List Nat`). -/
structure FileState where
  fexists : Bool
  metaLen : Except String Nat
  content : Except String (List Nat)

/-- Mirrors `validate_file` in `src/src/io/sync.rs` (lines 28-61) and
`src/src/io/game.rs` (lines 23-56), with the `sha1` feature enabled; the
SHA-1 digest is an abstract `hasher` parameter, `?`-propagated I/O errors are
the `Except.error` branches. -/
def validate_file (hasher : List Nat → String) (st : FileState)
    (expected_sha1 : String) (expected_size : Nat) : Except String Bool :=
  if !st.fexists then .ok false
  else
    match st.metaLen with
    | .error e => .error e
    | .ok len =>
      if len != expected_size then .ok false
      else
        match st.content with
        | .error e => .error e
        | .ok filebuf =>
          if hasher filebuf != expected_sha1 then .ok false
          else .ok true

/-- Mirrors `RemoteMetadata` (url omitted: it only addresses the remote). -/
structure RemoteMetadata where
  sha1 : String
  size : Nat
deriving DecidableEq, Repr

/-- Error-free per-descriptor world for the pull models: the local file's
content (`none` when the path is absent) and whether the natives extraction
directory exists. -/
structure World where
  file : Option (List Nat)
  extractDirExists : Bool
deriving DecidableEq, Repr

/-- `validate_file` specialised to an error-free world: the file exists with
content `buf` iff `file = some buf`, its metadata length is `buf.length`, and
reads succeed. -/
def fileValid (hasher : List Nat → String) (meta : RemoteMetadata)
    (file : Option (List Nat)) : Bool :=
  match file with
  | none => false
  | some buf => buf.length == meta.size && hasher buf == meta.sha1

/-- Observable outcome of pulling one descriptor: how many downloads were
issued, whether extraction ran, and the resulting world. -/
structure PullResult where
  downloads : Nat
  extracted : Bool
  world : World
deriving DecidableEq, Repr

/-- Mirrors `Index::pull` in `src/src/io/sync.rs` (lines 93-116): download iff
`validate_file` fails; then, for a native artifact, extract iff the extraction
directory does not exist. `remoteContent` is the byte stream
`download_file` writes; extraction creates the directory. -/
def pullSync (hasher : List Nat → String) (meta : RemoteMetadata)
    (remoteContent : List Nat) (isNative : Bool) (w : World) : PullResult :=
  let dl := !fileValid hasher meta w.file
  let w1 : World := if dl then { w with file := some remoteContent } else w
  if isNative && !w1.extractDirExists then
    { downloads := if dl then 1 else 0, extracted := true,
      world := { w1 with extractDirExists := true } }
  else
    { downloads := if dl then 1 else 0, extracted := false, world := w1 }

/-- The two descriptor kinds of `src/src/io/game.rs`. -/
inductive IndexType where
  | gameFile
  | nativeArtifact
deriving DecidableEq, Repr

/-- Mirrors `Index::pull` in `src/src/io/game.rs` (lines 88-115): a game file
downloads iff invalid; a native artifact downloads AND re-extracts iff the
archive is invalid OR the natives directory does not exist. -/
def pullGame (hasher : List Nat → String) (meta : RemoteMetadata)
    (remoteContent : List Nat) (itype : IndexType) (w : World) : PullResult :=
  match itype with
  | .gameFile =>
    if !fileValid hasher meta w.file then
      { downloads := 1, extracted := false, world := { w with file := some remoteContent } }
    else
      { downloads := 0, extracted := false, world := w }
  | .nativeArtifact =>
    if !fileValid hasher meta w.file || !w.extractDirExists then
      { downloads := 1, extracted := true,
        world := { file := some remoteContent, extractDirExists := true } }
    else
      { downloads := 0, extracted := false, world := w }

/-- Local state seen by the existence-only fetchers: whether the path exists
and, if so, its content. -/
structure DlFile where
  fexists : Bool
  content : List Nat
deriving DecidableEq, Repr

/-- Mirrors `download_if_absent` in `src/mc-launcher-api/src/file.rs`
(lines 23-52): download iff `force || !path.exists()`; the boolean in the
result records whether a download was issued. -/
def download_if_absent (st : DlFile) (remoteContent : List Nat) (force : Bool) :
    Bool × DlFile :=
  if force || !st.fexists then (true, { fexists := true, content := remoteContent })
  else (false, st)

/-- Mirrors `FileIndex::fetch` in `src/src/file.rs` (lines 65-84): download iff
`invalidate || !self.location.exists()`. -/
def fileIndexFetch (st : DlFile) (remoteContent : List Nat) (invalidate : Bool) :
    Bool × DlFile :=
  if invalidate || !st.fexists then (true, { fexists := true, content := remoteContent })
  else (false, st)

/-- Mirrors the directory fields of `Hierarchy` in `src/src/file/mod.rs`. -/
structure Hierarchy where
  gamedir : String
  assets_dir : String
  libraries_dir : String
  version_dir : String
  natives_dir : String
deriving DecidableEq, Repr

/-- Stand-in for `Path::join` with a relative right operand. -/
def pathJoin (dir file : String) : String :=
  dir ++ "/" ++ file

/-- Character containment over the string content, standing in for
`str::contains` on a char. -/
def containsChar (s : String) (c : Char) : Bool :=
  s.data.any (fun x => x == c)

/-- Mirrors `std::env::join_paths` (Unix separator): errors when an entry
contains the separator, otherwise intercalates. -/
def join_paths (paths : List String) : Except String String :=
  if paths.any (fun entry => containsChar entry ':') then .error "JoinPathsError"
  else .ok (String.intercalate ":" paths)

/-- Mirrors `GameCommand::build_classpath` in `src/src/process.rs`
(lines 42-60), which is the same expression inlined in
`GameCommand::build_with_default_params` of `src/src/io/process.rs`
(lines 94-107): rule-included libraries' artifacts, in declaration order,
then `version_dir/client.jar`, joined by `env::join_paths`. -/
def build_classpath (libs : List Library) (h : Hierarchy) (p : Platform) :
    Except String String :=
  join_paths
    (((libs.filterMap (fun lib =>
        if lib.is_supported_by_rules p then lib.resources.artifact else none)).map
      (fun artifact => pathJoin h.libraries_dir artifact.path))
     ++ [pathJoin h.version_dir "client.jar"])

/-- Modelled from the spec: the classpath entry list — the artifact path of
every rule-included library, in library declaration order, followed by the
client binary path last. -/
def specClasspathEntries (libs : List Library) (h : Hierarchy) (p : Platform) :
    List String :=
  ((libs.filter (fun lib => lib.is_supported_by_rules p)).filterMap
    (fun lib => lib.resources.artifact.map
      (fun artifact => pathJoin h.libraries_dir artifact.path)))
  ++ [pathJoin h.version_dir "client.jar"]

/-- Lookup in a string-valued association list, standing in for
`HashMap::get` on the substitution context. -/
def lookupStr (m : List (String × String)) (k : String) : Option String :=
  (m.find? (fun kv => kv.1 == k)).map (·.2)

/-- First index at which `pat` occurs as a contiguous sublist of `s`,
standing in for Rust `str::find`. -/
def findSub (pat : List Char) : List Char → Option Nat
  | [] => if pat.isPrefixOf ([] : List Char) then some 0 else none
  | c :: cs =>
    if pat.isPrefixOf (c :: cs) then some 0
    else (findSub pat cs).map (· + 1)

/-- Mirrors `substitute_arg` in `src/src/io/process.rs` (lines 14-29): finds
the first `"$\x7b"`, the first `'\x7d'` after it, and splices in the context
value for the name between them, defaulting to the empty string when the name
is unknown. -/
def substitute_arg_io (arg : String) (params : List (String × String)) : String :=
  let a := arg.data
  match findSub ['$', '\x7b'] a with
  | none => arg
  | some i =>
    match findSub ['\x7d'] (a.drop i) with
    | none => arg
    | some j =>
      let name := String.mk ((a.drop (i + 2)).take (j - 2))
      let replacement := (lookupStr params name).getD ""
      String.mk (a.take i) ++ replacement ++ String.mk (a.drop (i + j + 1))

/-- Mirrors `substitute_arg` in `src/src/process.rs` (lines 17-31): same
scanning, but when the name is not a key of the context the whole argument is
returned verbatim (placeholder left in place). -/
def substitute_arg_proc (arg : String) (params : List (String × String)) : String :=
  let a := arg.data
  match findSub ['$', '\x7b'] a with
  | none => arg
  | some i =>
    match findSub ['\x7d'] (a.drop i) with
    | none => arg
    | some j =>
      let name := String.mk ((a.drop (i + 2)).take (j - 2))
      match lookupStr params name with
      | some replacement =>
        String.mk (a.take i) ++ replacement ++ String.mk (a.drop (i + j + 1))
      | none => arg

/-- Coherence of the error-free abstraction: on a world where the file exists
with content `buf`, metadata length reads as `buf.length` and the content read
succeeds, `validate_file` returns `.ok` of exactly `fileValid`. -/
theorem validate_file_fileValid (hasher : List Nat → String) (meta : RemoteMetadata)
    (buf : List Nat) :
    validate_file hasher { fexists := true, metaLen := .ok buf.length, content := .ok buf }
      meta.sha1 meta.size = .ok (fileValid hasher meta (some buf)) := by
  unfold validate_file fileValid
  by_cases hlen : buf.length = meta.size
  · by_cases hh : hasher buf = meta.sha1 <;> simp [hlen, hh]
  · simp [hlen, Ne.symm hlen]

/-- Claim C1, counterexample: a library carrying no `RuleSet` at all is NOT
included by default — `is_supported_by_rules` returns `false` for it, exactly
as for a library with a present-but-empty `RuleSet`, so the two cases are not
distinguished. -/
theorem C1_counterexample :
    Library.is_supported_by_rules
      { resources := { artifact := none, other := none },
        name := "org.lwjgl:lwjgl:3.3.1", rules := none }
      { os := "linux", arch := "x86_64" } = false ∧
    Library.is_supported_by_rules
      { resources := { artifact := none, other := none },
        name := "org.lwjgl:lwjgl:3.3.1", rules := some [] }
      { os := "linux", arch := "x86_64" } = false := by
  exact ⟨rfl, rfl⟩

/-- Claim C1, amended: absence of a `RuleSet` and a present-but-empty
`RuleSet` both evaluate to not included — `is_supported_by_rules` returns
`false` in both cases, so the inclusion decision does not distinguish them
and a rule-less library is excluded rather than included by default. -/
theorem C1_amended (lib : Library) (p : Platform) :
    (lib.rules = none → lib.is_supported_by_rules p = false) ∧
    (lib.rules = some [] → lib.is_supported_by_rules p = false) := by
  constructor
  · intro h
    unfold Library.is_supported_by_rules
    rw [h]
  · intro h
    unfold Library.is_supported_by_rules
    rw [h]
    rfl

/-- Witness for C1: the amended theorem applied to a concrete rule-less
library on a concrete platform. -/
theorem C1_witness :
    Library.is_supported_by_rules
      { resources := { artifact := none, other := none },
        name := "com.mojang:brigadier:1.0.18", rules := none }
      { os := "windows", arch := "x86" } = false :=
  (C1_amended
    { resources := { artifact := none, other := none },
      name := "com.mojang:brigadier:1.0.18", rules := none }
    { os := "windows", arch := "x86" }).1 rfl

/-- Claim C3: a rule whose `os.name` filter is present and differs from the
platform OS, or whose `os.arch` filter is present and differs from the
platform arch, has effective action `action.invert()`; a whole rule set is
allowed iff some rule evaluates to Allow; and the concrete set
`[\x7b action: Disallow, os: \x7b name: "linux" \x7d \x7d]` on a Windows
context is allowed. -/
theorem C3_rule_inversion :
    (∀ (r : Rule) (os : OsDescription) (p : Platform) (params : List (String × Bool)),
      r.os = some os →
      ((∃ n, os.name = some n ∧ n ≠ p.os) ∨ (∃ a, os.arch = some a ∧ a ≠ p.arch)) →
      r.calculate_action p params = r.action.invert) ∧
    (∀ (rules : List Rule) (p : Platform) (params : List (String × Bool)),
      Rules.is_allowed rules p params = true ↔
        ∃ r ∈ rules, r.calculate_action p params = RuleAction.allow) ∧
    (Rules.is_allowed
      [{ action := .disallow,
         os := some { name := some "linux", version := none, arch := none },
         features := none }]
      { os := "windows", arch := "x86_64" } [] = true) := by
  refine ⟨?_, ?_, by decide⟩
  · intro r os p params hos hmm
    have hmis : os.mismatches p = true := by
      unfold OsDescription.mismatches
      rcases hmm with ⟨n, hn, hne⟩ | ⟨a, ha, hne⟩
      · rw [hn]
        simp [hne]
      · rw [ha]
        cases hname : os.name with
        | none => simp [hne]
        | some n =>
          simp only [Bool.or_eq_true, bne_iff_ne, ne_eq]
          exact Or.inr hne
    unfold Rule.calculate_action
    rw [hos]
    simp [hmis]
  · intro rules p params
    simp [Rules.is_allowed, Rule.is_allowed, List.any_eq_true, beq_iff_eq]

/-- Witness for C3: the inversion clause applied to the concrete
Disallow-on-linux rule evaluated on a Windows platform. -/
theorem C3_witness :
    Rule.calculate_action
      { action := .disallow,
        os := some { name := some "linux", version := none, arch := none },
        features := none }
      { os := "windows", arch := "x86_64" } [] = RuleAction.allow := by
  have h := C3_rule_inversion.1
    { action := .disallow,
      os := some { name := some "linux", version := none, arch := none },
      features := none }
    { name := some "linux", version := none, arch := none }
    { os := "windows", arch := "x86_64" } [] rfl
    (Or.inl ⟨"linux", rfl, by decide⟩)
  exact h

/-- Claim C7: on any platform whose OS is none of linux, windows, macos there
is no native-classifier mapping, and `get_native_for_os` surfaces the fatal
`unsupported target` error (the source panics) instead of silently skipping. -/
theorem C7_unsupported_platform (p : Platform) (res : LibraryResources)
    (h1 : p.os ≠ "linux") (h2 : p.os ≠ "windows") (h3 : p.os ≠ "macos") :
    res.get_native_for_os p = .error "unsupported target" := by
  unfold LibraryResources.get_native_for_os nativeClassifierKey
  simp [h1, h2, h3]

/-- Witness for C7: a FreeBSD platform with an arbitrary classifier map hits
the fatal error. -/
theorem C7_witness :
    LibraryResources.get_native_for_os
      { artifact := none,
        other := some [("natives-linux",
          { resource := { sha1 := "da39a3ee", size := 10, url := "http://x" },
            path := "lwjgl-natives-linux.jar" })] }
      { os := "freebsd", arch := "x86_64" } = .error "unsupported target" :=
  C7_unsupported_platform
    { os := "freebsd", arch := "x86_64" }
    { artifact := none,
      other := some [("natives-linux",
        { resource := { sha1 := "da39a3ee", size := 10, url := "http://x" },
          path := "lwjgl-natives-linux.jar" })] }
    (by decide) (by decide) (by decide)

/-- Claim C2: the mcl_rs asset path (non-legacy
`objects/<first-2-hex>/<full_hash>`, legacy `virtual/legacy/<virtual_path>`)
agrees with the registry convention for every entry, while the mc-launcher-api
copy, evaluated at a concrete hash, yields the reversed
`object/<full_hash>/<first-2-hex>` — diverging from the convention. -/
theorem C2_asset_paths :
    (∀ (legacy : Bool) (path : String) (m : AssetMetadata),
      assetRelPath legacy path m = specAssetRelPath legacy path m) ∧
    assetRelPathApi false "icons/icon_16x16.png"
      { hash := "abcdef0123456789abcdef0123456789abcdef01", size := 100 }
      = "object/abcdef0123456789abcdef0123456789abcdef01/ab" ∧
    specAssetRelPath false "icons/icon_16x16.png"
      { hash := "abcdef0123456789abcdef0123456789abcdef01", size := 100 }
      = "objects/ab/abcdef0123456789abcdef0123456789abcdef01" ∧
    assetRelPathApi false "icons/icon_16x16.png"
      { hash := "abcdef0123456789abcdef0123456789abcdef01", size := 100 }
      ≠ specAssetRelPath false "icons/icon_16x16.png"
      { hash := "abcdef0123456789abcdef0123456789abcdef01", size := 100 } := by
  refine ⟨fun legacy path m => rfl, by decide, by decide, by decide⟩

/-- Claim C4: `validate_file` returns `Ok(false)` when the path does not
exist; `Ok(false)` on a size mismatch whatever the content read would yield
(short-circuit, no hashing); `Ok(true)` when both size and hash match; and it
propagates metadata or content read errors as `Err`, never as `Ok(false)`. -/
theorem C4_validate_file (hasher : List Nat → String) (st : FileState)
    (sha1 : String) (size : Nat) :
    (st.fexists = false → validate_file hasher st sha1 size = .ok false) ∧
    (∀ len, st.fexists = true → st.metaLen = .ok len → len ≠ size →
      validate_file hasher st sha1 size = .ok false) ∧
    (∀ buf, st.fexists = true → st.metaLen = .ok size → st.content = .ok buf →
      hasher buf = sha1 → validate_file hasher st sha1 size = .ok true) ∧
    (∀ e, st.fexists = true → st.metaLen = .error e →
      validate_file hasher st sha1 size = .error e) ∧
    (∀ e, st.fexists = true → st.metaLen = .ok size → st.content = .error e →
      validate_file hasher st sha1 size = .error e) := by
  refine ⟨?_, ?_, ?_, ?_, ?_⟩
  · intro h
    unfold validate_file
    simp [h]
  · intro len hex hmeta hne
    unfold validate_file
    rw [hmeta]
    simp [hex, hne]
  · intro buf hex hmeta hcontent hh
    unfold validate_file
    rw [hmeta, hcontent]
    simp [hex, hh]
  · intro e hex hmeta
    unfold validate_file
    rw [hmeta]
    simp [hex]
  · intro e hex hmeta hcontent
    unfold validate_file
    rw [hmeta, hcontent]
    simp [hex]

/-- Witness for C4: concrete instances of the absent-path, size-mismatch and
error-propagation clauses. -/
theorem C4_witness :
    validate_file (fun _ => "da39a3ee")
      { fexists := false, metaLen := .ok 0, content := .ok [] } "da39a3ee" 3
      = .ok false ∧
    validate_file (fun _ => "da39a3ee")
      { fexists := true, metaLen := .ok 7, content := .error "EACCES" } "da39a3ee" 3
      = .ok false ∧
    validate_file (fun _ => "da39a3ee")
      { fexists := true, metaLen := .ok 3, content := .error "EACCES" } "da39a3ee" 3
      = .error "EACCES" := by
  refine ⟨?_, ?_, ?_⟩
  · exact (C4_validate_file (fun _ => "da39a3ee")
      { fexists := false, metaLen := .ok 0, content := .ok [] } "da39a3ee" 3).1 rfl
  · exact (C4_validate_file (fun _ => "da39a3ee")
      { fexists := true, metaLen := .ok 7, content := .error "EACCES" } "da39a3ee" 3).2.1
      7 rfl rfl (by decide)
  · exact (C4_validate_file (fun _ => "da39a3ee")
      { fexists := true, metaLen := .ok 3, content := .error "EACCES" } "da39a3ee" 3).2.2.2.2
      "EACCES" rfl rfl rfl

/-- Claim C10: with the force/invalidate flag false, both `download_if_absent`
and `FileIndex::fetch` skip any path that already exists — no download is
issued and the local content is left unchanged, whatever that content is
(in particular when its size or hash differs from the remote metadata; the
skip condition consults existence only, never integrity). -/
theorem C10_existence_only_skip (st : DlFile) (rc : List Nat)
    (hex : st.fexists = true) :
    download_if_absent st rc false = (false, st) ∧
    fileIndexFetch st rc false = (false, st) := by
  constructor
  · unfold download_if_absent
    simp [hex]
  · unfold fileIndexFetch
    simp [hex]

/-- Witness for C10: a present file whose one-byte content matches no real
archive is still skipped and untouched. -/
theorem C10_witness :
    download_if_absent { fexists := true, content := [0] } [1, 2, 3] false
      = (false, { fexists := true, content := [0] }) ∧
    fileIndexFetch { fexists := true, content := [0] } [1, 2, 3] false
      = (false, { fexists := true, content := [0] }) :=
  C10_existence_only_skip { fexists := true, content := [0] } [1, 2, 3] rfl

/-- Download count of the sync-variant pull: one download iff the local file
fails validation. -/
theorem pullSync_downloads (hasher : List Nat → String) (meta : RemoteMetadata)
    (rc : List Nat) (isNative : Bool) (w : World) :
    (pullSync hasher meta rc isNative w).downloads
      = if fileValid hasher meta w.file then 0 else 1 := by
  unfold pullSync
  cases hv : fileValid hasher meta w.file <;> simp [hv] <;> split <;> rfl

/-- Resulting file of the sync-variant pull: untouched when valid, replaced by
the remote content otherwise. -/
theorem pullSync_world_file (hasher : List Nat → String) (meta : RemoteMetadata)
    (rc : List Nat) (isNative : Bool) (w : World) :
    (pullSync hasher meta rc isNative w).world.file
      = if fileValid hasher meta w.file then w.file else some rc := by
  unfold pullSync
  cases hv : fileValid hasher meta w.file <;> simp [hv] <;> split <;> rfl

/-- Extraction of the sync-variant pull runs iff the descriptor is a native
artifact and the extraction directory does not exist — independent of whether
the archive validated or was just re-downloaded. -/
theorem pullSync_extracted (hasher : List Nat → String) (meta : RemoteMetadata)
    (rc : List Nat) (isNative : Bool) (w : World) :
    (pullSync hasher meta rc isNative w).extracted
      = (isNative && !w.extractDirExists) := by
  unfold pullSync
  cases isNative <;> cases hd : w.extractDirExists <;>
    cases hv : fileValid hasher meta w.file <;> simp [hv, hd]

/-- Download count of the game-variant pull. -/
theorem pullGame_downloads (hasher : List Nat → String) (meta : RemoteMetadata)
    (rc : List Nat) (itype : IndexType) (w : World) :
    (pullGame hasher meta rc itype w).downloads
      = match itype with
        | .gameFile => if fileValid hasher meta w.file then 0 else 1
        | .nativeArtifact =>
          if fileValid hasher meta w.file && w.extractDirExists then 0 else 1 := by
  cases itype <;> unfold pullGame <;>
    cases hv : fileValid hasher meta w.file <;>
    cases hd : w.extractDirExists <;> simp [hv, hd]

/-- Resulting world of the game-variant pull. -/
theorem pullGame_world (hasher : List Nat → String) (meta : RemoteMetadata)
    (rc : List Nat) (itype : IndexType) (w : World) :
    (pullGame hasher meta rc itype w).world
      = match itype with
        | .gameFile =>
          if fileValid hasher meta w.file then w else { w with file := some rc }
        | .nativeArtifact =>
          if fileValid hasher meta w.file && w.extractDirExists then w
          else { file := some rc, extractDirExists := true } := by
  cases itype <;> unfold pullGame <;>
    cases hv : fileValid hasher meta w.file <;>
    cases hd : w.extractDirExists <;> simp [hv, hd]

/-- Extraction of the game-variant pull runs exactly when the download branch
is taken. -/
theorem pullGame_extracted (hasher : List Nat → String) (meta : RemoteMetadata)
    (rc : List Nat) (w : World) :
    (pullGame hasher meta rc IndexType.nativeArtifact w).extracted
      = !(fileValid hasher meta w.file && w.extractDirExists) := by
  unfold pullGame
  cases hv : fileValid hasher meta w.file <;>
    cases hd : w.extractDirExists <;> simp [hv, hd]

/-- Claim C5, counterexample: in the `src/src/io/game.rs` variant, a native
archive whose local file matches both expected size and hash is nevertheless
re-downloaded when the natives directory does not exist — one download is
issued for a fully valid local file. -/
theorem C5_counterexample :
    fileValid (fun buf => if buf == [7] then "aa" else "bb")
      { sha1 := "aa", size := 1 } (some [7]) = true ∧
    (pullGame (fun buf => if buf == [7] then "aa" else "bb")
      { sha1 := "aa", size := 1 } [7] IndexType.nativeArtifact
      { file := some [7], extractDirExists := false }).downloads = 1 := by
  exact ⟨rfl, rfl⟩

/-- Claim C5, amended: a descriptor whose local file matches size and hash is
pulled with zero downloads in the sync variant always, and in the game variant
for game files always and for native archives whenever the natives directory
exists; and under a remote whose content matches the metadata, a second pull
right after a first one performs zero downloads in both variants. -/
theorem C5_amended (hasher : List Nat → String) (meta : RemoteMetadata)
    (rc : List Nat) (w : World) :
    (∀ isNative, fileValid hasher meta w.file = true →
      (pullSync hasher meta rc isNative w).downloads = 0) ∧
    (fileValid hasher meta w.file = true →
      (pullGame hasher meta rc IndexType.gameFile w).downloads = 0) ∧
    (fileValid hasher meta w.file = true → w.extractDirExists = true →
      (pullGame hasher meta rc IndexType.nativeArtifact w).downloads = 0) ∧
    (hasher rc = meta.sha1 → rc.length = meta.size →
      (∀ isNative,
        (pullSync hasher meta rc isNative
          (pullSync hasher meta rc isNative w).world).downloads = 0) ∧
      (∀ itype,
        (pullGame hasher meta rc itype
          (pullGame hasher meta rc itype w).world).downloads = 0)) := by
  refine ⟨?_, ?_, ?_, ?_⟩
  · intro isNative h
    rw [pullSync_downloads, h]
    rfl
  · intro h
    rw [pullGame_downloads, h]
    rfl
  · intro h hd
    rw [pullGame_downloads, h, hd]
    rfl
  · intro hs hl
    have hrc : fileValid hasher meta (some rc) = true := by
      simp [fileValid, hs, hl]
    constructor
    · intro isNative
      rw [pullSync_downloads, pullSync_world_file]
      cases hv : fileValid hasher meta w.file <;> simp [hv, hrc]
    · intro itype
      cases itype <;> rw [pullGame_downloads, pullGame_world]
      · cases hv : fileValid hasher meta w.file <;> simp [hv, hrc]
      · cases hv : fileValid hasher meta w.file <;>
          cases hd : w.extractDirExists <;> simp [hv, hd, hrc]

/-- Witness for C5: a concrete valid local file is pulled with zero downloads,
and a concrete second pull after a first one downloads nothing. -/
theorem C5_witness :
    (pullSync (fun buf => if buf == [7] then "aa" else "bb")
      { sha1 := "aa", size := 1 } [7] false
      { file := some [7], extractDirExists := false }).downloads = 0 ∧
    (pullGame (fun buf => if buf == [7] then "aa" else "bb")
      { sha1 := "aa", size := 1 } [7] IndexType.nativeArtifact
      (pullGame (fun buf => if buf == [7] then "aa" else "bb")
        { sha1 := "aa", size := 1 } [7] IndexType.nativeArtifact
        { file := none, extractDirExists := false }).world).downloads = 0 := by
  constructor
  · exact (C5_amended (fun buf => if buf == [7] then "aa" else "bb")
      { sha1 := "aa", size := 1 } [7]
      { file := some [7], extractDirExists := false }).1 false rfl
  · exact (((C5_amended (fun buf => if buf == [7] then "aa" else "bb")
      { sha1 := "aa", size := 1 } [7]
      { file := none, extractDirExists := false }).2.2.2 rfl rfl).2)
      IndexType.nativeArtifact

/-- Claim C6, counterexample: in the `src/src/io/sync.rs` variant, a native
archive that fails validation is re-fetched, yet extraction is skipped because
the natives directory already exists — extraction is NOT re-run after a
re-fetch, and the skip does not require the archive to validate. -/
theorem C6_counterexample :
    (pullSync (fun _ => "aa") { sha1 := "aa", size := 1 } [7] true
      { file := none, extractDirExists := true }).downloads = 1 ∧
    (pullSync (fun _ => "aa") { sha1 := "aa", size := 1 } [7] true
      { file := none, extractDirExists := true }).extracted = false := by
  exact ⟨rfl, rfl⟩

/-- Claim C6, amended: in the game variant extraction is skipped iff the
natives directory exists and the archive validates, and any re-fetch re-runs
extraction; in the sync variant extraction is skipped iff the natives
directory already exists, independent of the archive validity, so a
re-fetched archive is not re-extracted when the directory is present. -/
theorem C6_amended (hasher : List Nat → String) (meta : RemoteMetadata)
    (rc : List Nat) (w : World) :
    ((pullGame hasher meta rc IndexType.nativeArtifact w).extracted
      = !(fileValid hasher meta w.file && w.extractDirExists)) ∧
    ((pullGame hasher meta rc IndexType.nativeArtifact w).downloads ≠ 0 →
      (pullGame hasher meta rc IndexType.nativeArtifact w).extracted = true) ∧
    (∀ isNative, (pullSync hasher meta rc isNative w).extracted
      = (isNative && !w.extractDirExists)) := by
  refine ⟨pullGame_extracted hasher meta rc w, ?_, fun isNative =>
    pullSync_extracted hasher meta rc isNative w⟩
  intro hd
  rw [pullGame_extracted]
  rw [pullGame_downloads] at hd
  cases hc : (fileValid hasher meta w.file && w.extractDirExists)
  · rfl
  · rw [hc] at hd
    simp at hd

/-- Witness for C6: a concrete invalid native archive with no natives
directory is re-fetched and re-extracted by the game variant. -/
theorem C6_witness :
    (pullGame (fun _ => "bb") { sha1 := "aa", size := 1 } [7]
      IndexType.nativeArtifact { file := none, extractDirExists := false }).extracted
      = true :=
  (C6_amended (fun _ => "bb") { sha1 := "aa", size := 1 } [7]
    { file := none, extractDirExists := false }).2.1 (by decide)

/-- The filtered artifact list of `build_classpath` coincides with the
spec-worded enumeration of rule-included libraries. -/
theorem classpath_entries_eq (libs : List Library) (h : Hierarchy) (p : Platform) :
    (libs.filterMap (fun lib =>
      if lib.is_supported_by_rules p then lib.resources.artifact else none)).map
      (fun artifact => pathJoin h.libraries_dir artifact.path)
    = (libs.filter (fun lib => lib.is_supported_by_rules p)).filterMap
        (fun lib => lib.resources.artifact.map
          (fun artifact => pathJoin h.libraries_dir artifact.path)) := by
  induction libs with
  | nil => rfl
  | cons l ls ih =>
    cases hs : l.is_supported_by_rules p
    · simp [List.filterMap_cons, List.filter_cons, hs, ih]
    · cases ha : l.resources.artifact <;>
        simp [List.filterMap_cons, List.filter_cons, hs, ha, ih]

/-- Claim C8: whenever no entry contains the path-list separator,
`build_classpath` returns exactly the separator-join of the artifact paths of
the rule-included libraries, in library declaration order, with the client
binary path last. -/
theorem C8_classpath (libs : List Library) (h : Hierarchy) (p : Platform)
    (hsep : ∀ e ∈ specClasspathEntries libs h p, containsChar e ':' = false) :
    build_classpath libs h p
      = .ok (String.intercalate ":" (specClasspathEntries libs h p)) := by
  unfold build_classpath
  rw [classpath_entries_eq]
  show join_paths (specClasspathEntries libs h p) = _
  have hany : (specClasspathEntries libs h p).any
      (fun entry => containsChar entry ':') = false :=
    List.any_eq_false.mpr (fun e he => by simp [hsep e he])
  unfold join_paths
  rw [hany]
  rfl

/-- Witness for C8: one rule-included library with an artifact plus the client
binary produce the two-entry joined classpath. -/
theorem C8_witness :
    build_classpath
      [{ resources :=
          { artifact := some
              { resource := { sha1 := "s1", size := 1, url := "http://u" },
                path := "com/mojang/a.jar" },
            other := none },
         name := "com.mojang:a:1",
         rules := some [{ action := .allow, os := none, features := none }] }]
      { gamedir := "g", assets_dir := "g/assets", libraries_dir := "g/libraries",
        version_dir := "g/versions/1.20", natives_dir := "g/natives" }
      { os := "linux", arch := "x86_64" }
      = .ok "g/libraries/com/mojang/a.jar:g/versions/1.20/client.jar" :=
  C8_classpath
    [{ resources :=
        { artifact := some
            { resource := { sha1 := "s1", size := 1, url := "http://u" },
              path := "com/mojang/a.jar" },
          other := none },
       name := "com.mojang:a:1",
       rules := some [{ action := .allow, os := none, features := none }] }]
    { gamedir := "g", assets_dir := "g/assets", libraries_dir := "g/libraries",
      version_dir := "g/versions/1.20", natives_dir := "g/natives" }
    { os := "linux", arch := "x86_64" }
    (by decide)

/-- Claim C9: on a template whose placeholder name is not a key of the
context, the io variant of `substitute_arg` splices in the empty string while
the process variant returns the placeholder verbatim — the two functions are
not extensionally equal. -/
theorem C9_substitute_disagree :
    substitute_arg_io "${auth_uuid}" [("game_directory", "/home/u/.minecraft")] = "" ∧
    substitute_arg_proc "${auth_uuid}" [("game_directory", "/home/u/.minecraft")]
      = "${auth_uuid}" ∧
    substitute_arg_io "${auth_uuid}" [("game_directory", "/home/u/.minecraft")]
      ≠ substitute_arg_proc "${auth_uuid}" [("game_directory", "/home/u/.minecraft")] := by
  refine ⟨by decide, by decide, by decide⟩

end McLauncher
